import Mathlib

/-!
Verification of the token-lifecycle and permission-resolution core of the
`adizell/async` repository (FastAPI + SQLAlchemy authentication service).

Shallow embedding notes:
- JWTs are modelled as an inductive `Token`: either a payload signed with the
  application secret, or malformed data.  `jwt_decode` models
  `jose.jwt.decode(token, SECRET_KEY, algorithms=[ALGORITHM])`, which raises
  `JWTError` on malformed input or when the `exp` claim is in the past.
- Unix timestamps are `Nat` seconds.
- The database tables behind SQLAlchemy are explicit lists:
  `List TokenBlacklist` for table `token_blacklist` (primary key `jti`) and
  `List User` for table `users`.
- Python exceptions become `Except` results.  `HTTPExc` models
  `fastapi.HTTPException` (status code and detail), `DomainError` models the
  exception classes of `app/domain/exceptions.py`.
- bcrypt hashing and verification are external to the repository
  (passlib/bcrypt); they are passed as function parameters where needed.
-/

namespace AdizellAsync

/-- JWT claim set used by this service: `sub`, `exp`, `type`, `jti`
(`app/adapters/outbound/security/*`).  Absent claims are `none`
(`payload.get(...)` returning `None`). -/
structure Payload where
  sub : Option String
  exp : Nat
  type : Option String
  jti : Option String
  deriving DecidableEq, Repr

/-- A bearer token: either a JWT signed with the application secret and
carrying a payload, or anything else (wrong signature, garbage). -/
inductive Token where
  | signed (payload : Payload)
  | malformed
  deriving DecidableEq, Repr

/-- Error raised by the `jose` JWT library. -/
inductive JWTErr where
  | jwtError
  deriving DecidableEq, Repr

/-- Models `jose.jwt.decode(token, SECRET_KEY, algorithms=[ALGORITHM])` at
current time `now`: fails on malformed tokens and on tokens whose `exp`
claim is strictly in the past (the `jose` expiry check with zero leeway). -/
def jwt_decode (now : Nat) : Token → Except JWTErr Payload
  | Token.signed p => if p.exp < now then Except.error JWTErr.jwtError else Except.ok p
  | Token.malformed => Except.error JWTErr.jwtError

/-- Models `fastapi.HTTPException`: status code plus detail string. -/
structure HTTPExc where
  status_code : Nat
  detail : String
  deriving DecidableEq, Repr

/-- Models the domain exception classes of `app/domain/exceptions.py`
(each constructor is one exception class, carrying its message). -/
inductive DomainError where
  | invalidCredentials (message : String)
  | resourceInactive (message : String)
  | resourceNotFound (message : String)
  | resourceAlreadyExists (message : String)
  | databaseOperation (message : String)
  | permissionDenied (message : String)
  deriving DecidableEq, Repr

/-! ## Token managers (`auth_user_manager.py`, `auth_client_manager.py`) -/

/-- `UserAuthManager.create_access_token(subject, expires_delta)`:
payload is exactly `\x7b"sub": subject, "exp": int((utcnow+delta).timestamp()),
"type": "user"\x7d` - note that NO `jti` claim is set. -/
def UserAuthManager.create_access_token (now ttl : Nat) (subject : String) : Payload :=
  { sub := some subject, exp := now + ttl, type := some "user", jti := none }

/-- `UserAuthManager.create_refresh_token(subject, token_id, expires_delta)`:
payload `sub`, `exp`, `type="refresh"`, `jti=token_id` (the caller passes a
fresh `str(uuid.uuid4())` as `token_id`). -/
def UserAuthManager.create_refresh_token (now ttl : Nat) (subject token_id : String) : Payload :=
  { sub := some subject, exp := now + ttl, type := some "refresh", jti := some token_id }

/-- `UserAuthManager.verify_access_token(token)`: decodes and requires
`type == "user"`; raises HTTP 401 otherwise.  The wrong-type branch raises
`HTTPException`, which is not a `JWTError` and therefore propagates. -/
def UserAuthManager.verify_access_token (now : Nat) (token : Token) : Except HTTPExc Payload :=
  match jwt_decode now token with
  | Except.error _ => Except.error ⟨401, "Token inválido ou expirado."⟩
  | Except.ok payload =>
    if payload.type ≠ some "user" then
      Except.error ⟨401, "Token inválido: tipo incorreto."⟩
    else
      Except.ok payload

/-- `UserAuthManager.verify_refresh_token(token)`: decodes and requires
`type == "refresh"`; raises HTTP 401 otherwise. -/
def UserAuthManager.verify_refresh_token (now : Nat) (token : Token) : Except HTTPExc Payload :=
  match jwt_decode now token with
  | Except.error _ => Except.error ⟨401, "Refresh token inválido ou expirado."⟩
  | Except.ok payload =>
    if payload.type ≠ some "refresh" then
      Except.error ⟨401, "Token inválido: não é um refresh token."⟩
    else
      Except.ok payload

/-- `ClientAuthManager.create_client_token(subject, expires_delta)`:
payload `sub`, `exp`, `type="client"`, `jti=str(uuid.uuid4())`; the freshly
generated UUID is the `jti` parameter here. -/
def ClientAuthManager.create_client_token (now ttl : Nat) (subject jti : String) : Payload :=
  { sub := some subject, exp := now + ttl, type := some "client", jti := some jti }

/-- `ClientAuthManager.verify_client_token(token)`: decodes and requires
`type == "client"`, raising `JWTError` on a type mismatch (re-raised). -/
def ClientAuthManager.verify_client_token (now : Nat) (token : Token) : Except JWTErr Payload :=
  match jwt_decode now token with
  | Except.error e => Except.error e
  | Except.ok payload =>
    if payload.type ≠ some "client" then
      Except.error JWTErr.jwtError
    else
      Except.ok payload

/-! ## Token blacklist (`token_repository.py`, `token_blacklist_model.py`) -/

/-- Row of table `token_blacklist`; column `jti` is the PRIMARY KEY
(`token_blacklist_model.py`). -/
structure TokenBlacklist where
  jti : String
  expires_at : Nat
  revoked_at : Nat
  deriving DecidableEq, Repr

/-- `AsyncTokenRepository.is_blacklisted(db, jti)`: SELECT by `jti`,
true iff a row exists. -/
def AsyncTokenRepository.is_blacklisted (db : List TokenBlacklist) (jti : String) : Bool :=
  db.any (fun t => t.jti == jti)

/-- `AsyncTokenRepository.add_to_blacklist(db, jti, expires_at, revoked_at)`:
INSERT of a new row.  Because `jti` is the primary key, inserting a `jti`
that is already present violates the unique constraint: SQLAlchemy raises
`IntegrityError` (a `SQLAlchemyError`), which the repository catches,
rolls back, and re-raises as `DatabaseOperationException` to the caller. -/
def AsyncTokenRepository.add_to_blacklist (db : List TokenBlacklist) (jti : String)
    (expires_at revoked_at : Nat) : Except DomainError (List TokenBlacklist) :=
  if AsyncTokenRepository.is_blacklisted db jti then
    Except.error (DomainError.databaseOperation "Error adding token to blacklist")
  else
    Except.ok (db ++ [{ jti := jti, expires_at := expires_at, revoked_at := revoked_at }])

/-! ## Users, groups, permissions (`user_model.py`, `permissions.py`) -/

/-- Row of `auth_permission`; only `codename` participates in permission
checks (columns `name` and `content_type_id` are never read by
`has_permission` or `collect_user_permissions`). -/
structure AuthPermission where
  codename : String
  deriving DecidableEq, Repr

/-- Row of `auth_group` with its many-to-many permissions. -/
structure AuthGroup where
  name : String
  permissions : List AuthPermission
  deriving DecidableEq, Repr

/-- Row of table `users` with its eagerly loaded `groups` and direct
`permissions` relationships (`user_group/user_model.py`).  The UUID primary
key is the string form Python exposes via `str(user.id)`. -/
structure User where
  id : String
  email : String
  password : String
  is_active : Bool
  is_superuser : Bool
  groups : List AuthGroup
  permissions : List AuthPermission
  deriving DecidableEq, Repr

/-- `User.has_permission(self, permission_codename)` from
`user_group/user_model.py`: superusers always pass; otherwise check the
direct permissions, then each group in turn. -/
def User.has_permission (u : User) (permission_codename : String) : Bool :=
  if u.is_superuser then
    true
  else if u.permissions.any (fun perm => perm.codename == permission_codename) then
    true
  else
    u.groups.any (fun group => group.permissions.any
      (fun perm => perm.codename == permission_codename))

/-- `collect_user_permissions(user)` from `security/permissions.py`:
a Python set built from the direct permission codenames, then extended
with the codenames of each group via `set.update` (set semantics). -/
def collect_user_permissions (u : User) : Finset String :=
  u.groups.foldl
    (fun acc group => acc ∪ (group.permissions.map (fun perm => perm.codename)).toFinset)
    (u.permissions.map (fun perm => perm.codename)).toFinset

/-! ## User repository (`user_repository.py`) -/

/-- `AsyncUserCRUD.get_by_email(db, email)`: SELECT user WHERE email. -/
def AsyncUserCRUD.get_by_email (db : List User) (email : String) : Option User :=
  db.find? (fun u => u.email == email)

/-- `user_repository.get(db, id)`: SELECT user by primary key. -/
def AsyncUserCRUD.get (db : List User) (id : String) : Option User :=
  db.find? (fun u => u.id == id)

/-- `AsyncUserCRUD.authenticate(db, email, password)`: unknown email and
password mismatch both raise `InvalidCredentialsException` with message
"Incorrect email or password"; an inactive user raises
`InvalidCredentialsException` with message "Inactive user" BEFORE the
password is even checked.  `verify_password` is the external bcrypt
verifier (`UserAuthManager.verify_password`). -/
def AsyncUserCRUD.authenticate (verify_password : String → String → Bool)
    (db : List User) (email password : String) : Except DomainError User :=
  match AsyncUserCRUD.get_by_email db email with
  | none => Except.error (DomainError.invalidCredentials "Incorrect email or password")
  | some user =>
    if user.is_active = false then
      Except.error (DomainError.invalidCredentials "Inactive user")
    else if verify_password password user.password = false then
      Except.error (DomainError.invalidCredentials "Incorrect email or password")
    else
      Except.ok user

/-! ## Auth service (`auth_use_cases.py`) -/

/-- The `TokenData` DTO returned by login and refresh. -/
structure TokenData where
  access_token : Token
  refresh_token : Token
  expires_at : Nat
  deriving DecidableEq, Repr

/-- `AsyncAuthService.login_user(user_input)`: authenticate, then issue an
access token (`create_access_token`, no `jti`) and a refresh token carrying
a fresh UUID `token_id` as `jti`.  `token_id` stands for the
`str(uuid.uuid4())` drawn at line 128 of `auth_use_cases.py`. -/
def AsyncAuthService.login_user (verify_password : String → String → Bool)
    (db : List User) (now access_ttl refresh_ttl : Nat) (token_id : String)
    (email password : String) : Except DomainError TokenData :=
  match AsyncUserCRUD.authenticate verify_password db email password with
  | Except.error e => Except.error e
  | Except.ok user =>
    Except.ok
      { access_token := Token.signed (UserAuthManager.create_access_token now access_ttl user.id)
        refresh_token :=
          Token.signed (UserAuthManager.create_refresh_token now refresh_ttl user.id token_id)
        expires_at := now + access_ttl }

/-! ## Auth endpoints (`auth_endpoint.py`) -/

/-- `login_user` endpoint: maps `InvalidCredentialsException` to HTTP 401
with `detail=str(e)` (the exception message), `ResourceInactiveException`
to HTTP 401 with a fixed message, anything else to HTTP 500. -/
def auth_endpoint.login_user (verify_password : String → String → Bool)
    (db : List User) (now access_ttl refresh_ttl : Nat) (token_id : String)
    (email password : String) : Except HTTPExc TokenData :=
  match AsyncAuthService.login_user verify_password db now access_ttl refresh_ttl token_id
      email password with
  | Except.ok td => Except.ok td
  | Except.error (DomainError.invalidCredentials m) => Except.error ⟨401, m⟩
  | Except.error (DomainError.resourceInactive _) =>
    Except.error ⟨401, "Inactive user account. Contact the administrator."⟩
  | Except.error _ => Except.error ⟨500, "Internal server error."⟩

/-- `logout_user` endpoint: decode the presented token (401 on `JWTError`),
reject with HTTP 400 if the payload has no truthy `jti` (`if not jti`),
otherwise blacklist the `jti`, using the `exp` of the token as `expires_at`.
A `DatabaseOperationException` from the repository is not caught inside the
endpoint (only `JWTError` is) and escapes as a server error. -/
def auth_endpoint.logout_user (now : Nat) (bl : List TokenBlacklist) (token : Token) :
    Except HTTPExc (List TokenBlacklist × String) :=
  match jwt_decode now token with
  | Except.error _ => Except.error ⟨401, "Invalid token."⟩
  | Except.ok payload =>
    match payload.jti with
    | none => Except.error ⟨400, "Token does not support revocation."⟩
    | some jti =>
      if jti = "" then
        Except.error ⟨400, "Token does not support revocation."⟩
      else
        match AsyncTokenRepository.add_to_blacklist bl jti payload.exp now with
        | Except.ok bl2 => Except.ok (bl2, "Successfully logged out.")
        | Except.error _ => Except.error ⟨500, "Internal server error."⟩

/-! ## Authorization guards (`deps.py`, `deps_cookies.py`) -/

/-- `validate_uuid(uuid_string)` from `deps.py` delegates to Python
`uuid.UUID(...)`, which strips hyphens and accepts exactly 32 hexadecimal
digits.  This models the canonical hyphenated and plain-hex forms (the
`urn:`/brace-wrapped spellings are not exercised anywhere here). -/
def deps.validate_uuid (uuid_string : String) : Bool :=
  let hex := uuid_string.data.filter (fun c => c ≠ '-')
  hex.length == 32 && hex.all (fun c =>
    c.isDigit || ('a' ≤ c && c ≤ 'f') || ('A' ≤ c && c ≤ 'F'))

/-- The guard condition `if jti and await token_repository.is_blacklisted(db, jti)`:
Python truthiness means a missing or empty `jti` skips the blacklist
lookup entirely. -/
def deps.jti_truthy_and_blacklisted (bl : List TokenBlacklist) : Option String → Bool
  | none => false
  | some jti => jti ≠ "" && AsyncTokenRepository.is_blacklisted bl jti

/-- `get_permissions_current_user` from `deps.py` (the bearer user guard):
decode with the shared secret (NO check of the `type` claim), require `sub`
to be a truthy valid UUID, reject blacklisted `jti` (only when a truthy
`jti` is present), then load the user by `sub` and require it active. -/
def deps.get_permissions_current_user (now : Nat) (bl : List TokenBlacklist)
    (db : List User) (token : Token) : Except HTTPExc User :=
  match jwt_decode now token with
  | Except.error _ => Except.error ⟨401, "Invalid authentication credentials."⟩
  | Except.ok payload =>
    match payload.sub with
    | none => Except.error ⟨401, "Invalid authentication credentials."⟩
    | some user_id =>
      if user_id = "" ∨ deps.validate_uuid user_id = false then
        Except.error ⟨401, "Invalid authentication credentials."⟩
      else if deps.jti_truthy_and_blacklisted bl payload.jti then
        Except.error ⟨401, "Token has been revoked."⟩
      else
        match AsyncUserCRUD.get db user_id with
        | none => Except.error ⟨401, "User not found."⟩
        | some user =>
          if user.is_active = false then
            Except.error ⟨401, "Inactive user."⟩
          else
            Except.ok user

/-- `verify_client_token` from `deps.py`: validate via
`ClientAuthManager.verify_client_token` (this one DOES check
`type == "client"`), reject blacklisted truthy `jti`, require a truthy
`sub`, and return it.  Detail strings follow the source (inner quotes
around sub elided). -/
def deps.verify_client_token (now : Nat) (bl : List TokenBlacklist) (token : Token) :
    Except HTTPExc String :=
  match ClientAuthManager.verify_client_token now token with
  | Except.error _ => Except.error ⟨401, "Invalid client token."⟩
  | Except.ok payload =>
    if deps.jti_truthy_and_blacklisted bl payload.jti then
      Except.error ⟨401, "Client token has been revoked."⟩
    else
      match payload.sub with
      | none => Except.error ⟨401, "Invalid token: sub not found in client token."⟩
      | some sub =>
        if sub = "" then
          Except.error ⟨401, "Invalid token: sub not found in client token."⟩
        else
          Except.ok sub

/-- Python truthiness of an optional string (`not x`). -/
def deps_cookies.falsy : Option String → Bool
  | none => true
  | some s => s == ""

/-- The checks performed inside the `try` block of
`get_current_user_from_cookie` on the decoded payload, with the detail
strings of the `HTTPException`s the source raises there: require
`type == "access"`, a truthy `sub`, a non-blacklisted truthy `jti`, and
an existing active user.  These raised exceptions are NOT the observable
responses: see the wrapper below. -/
def deps_cookies.cookie_token_checks (bl : List TokenBlacklist) (db : List User)
    (payload : Payload) : Except HTTPExc User :=
  if payload.type ≠ some "access" then
    Except.error ⟨401, "Invalid token type"⟩
  else
    match payload.sub with
    | none => Except.error ⟨401, "Invalid token: missing subject"⟩
    | some user_id =>
      if user_id = "" then
        Except.error ⟨401, "Invalid token: missing subject"⟩
      else if deps.jti_truthy_and_blacklisted bl payload.jti then
        Except.error ⟨401, "Token has been revoked"⟩
      else
        match AsyncUserCRUD.get db user_id with
        | none => Except.error ⟨401, "User not found"⟩
        | some user =>
          if user.is_active = false then
            Except.error ⟨401, "Inactive user account"⟩
          else
            Except.ok user

/-- `get_current_user_from_cookie` from `deps_cookies.py`: a missing
cookie gives 401 and a failed CSRF double-submit gives 403, both raised
BEFORE the `try` block, so they surface as raised; inside the `try`, a
`JWTError` from decoding maps to 401 "Invalid or expired token", but
every `HTTPException` raised by the inner checks (wrong type, missing
subject, revoked, user not found, inactive) is swallowed by the final
catch-all `except Exception` at lines 138-143 - `HTTPException` is an
`Exception`, and unlike the client guard in `deps.py` this function has no
bare re-raise clause for it - so the observable outcome on all those
paths is HTTP 500 "Internal server error". -/
def deps_cookies.get_current_user_from_cookie (now : Nat) (bl : List TokenBlacklist)
    (db : List User) (method : String) (csrf_protect : Bool)
    (csrf_header csrf_cookie : Option String) (access_token : Option Token) :
    Except HTTPExc User :=
  match access_token with
  | none => Except.error ⟨401, "Authentication cookie missing"⟩
  | some token =>
    if (method = "POST" ∨ method = "PUT" ∨ method = "DELETE" ∨ method = "PATCH")
        ∧ csrf_protect = true
        ∧ (deps_cookies.falsy csrf_header ∨ deps_cookies.falsy csrf_cookie
            ∨ csrf_header ≠ csrf_cookie) then
      Except.error ⟨403, "CSRF token validation failed"⟩
    else
      match jwt_decode now token with
      | Except.error _ => Except.error ⟨401, "Invalid or expired token"⟩
      | Except.ok payload =>
        match deps_cookies.cookie_token_checks bl db payload with
        | Except.ok user => Except.ok user
        | Except.error _ => Except.error ⟨500, "Internal server error"⟩

/-! ## Password write-path guard (`logging_middleware.py`, `base_model.py`) -/

/-- The bcrypt output pattern of `PasswordProtectionMiddleware`:
regex `^\$2[abxy]\$\d\d\$[./A-Za-z0-9]\x7b53\x7d$`. -/
def bcrypt_pattern_match (s : String) : Bool :=
  match s.data with
  | '$' :: '2' :: v :: '$' :: d1 :: d2 :: '$' :: rest =>
    (v == 'a' || v == 'b' || v == 'x' || v == 'y') && d1.isDigit && d2.isDigit
      && rest.length == 53
      && rest.all (fun c => c == '.' || c == '/' || c.isAlphanum)
  | _ => false

/-- The body of the async `PasswordProtectionMiddleware.before_insert_or_update`:
if the target has a truthy `password` that does not match the bcrypt
pattern, replace it with `hash(password)`; otherwise leave it unchanged.
`hash` is the external bcrypt hasher. -/
def PasswordProtectionMiddleware.before_insert_or_update_body
    (hash : String → String) (password : String) : String :=
  if password ≠ "" ∧ bcrypt_pattern_match password = false then
    hash password
  else
    password

/-- What the registered SQLAlchemy listener actually does to the password
at runtime.  Both registration sites (`protect_password_on_insert` in
`models/base_model.py` and `register_password_protection` in
`user_group/base_model.py`) install the coroutine function
`before_insert_or_update` as a SYNCHRONOUS `before_insert`/`before_update`
listener: the call merely creates a coroutine object that is never awaited,
so the body above never executes and `target.password` is left unchanged. -/
def protect_password_on_insert (password : String) : String :=
  password

/-! ## Sample data used by concrete counterexamples and witnesses -/

/-- A syntactically valid user UUID (32 hex digits with hyphens). -/
def uuidA : String := "123e4567-e89b-12d3-a456-426614174000"

/-- An active non-superuser with no groups or direct permissions. -/
def alice : User :=
  { id := uuidA, email := "alice@example.com", password := "hashA"
    is_active := true, is_superuser := false, groups := [], permissions := [] }

/-- An inactive user with the same shape. -/
def uuidB : String := "223e4567-e89b-12d3-a456-426614174000"

/-- Inactive account used for the inactive-login scenarios. -/
def bruno : User :=
  { id := uuidB, email := "bruno@example.com", password := "hashB"
    is_active := false, is_superuser := false, groups := [], permissions := [] }

/-- Stand-in for the external bcrypt verifier in concrete scenarios: the
stored hash of a password is taken to be the password itself, so
verification is string equality. -/
def verifyEq : String → String → Bool := fun plain hashed => plain == hashed

/-! ## Theorems for the spec claims -/

/-- C3 counterexample: the user access token issued by
`UserAuthManager.create_access_token` carries NO `jti` claim at all, so it
is false that every issued token carries a freshly generated `jti`.
Concretely, the access token issued at time 1000 with TTL 900 for subject
`uuidA` has `jti = none` (while the claim requires a `jti` on every
issued token). -/
theorem c3_counterexample_access_token_lacks_jti :
    (UserAuthManager.create_access_token 1000 900 uuidA).jti = none
      ∧ (UserAuthManager.create_access_token 1000 900 uuidA).type = some "user" := by
  exact ⟨rfl, rfl⟩

/-- C3 amended: refresh tokens and client tokens carry `sub`, `type`,
`exp = issue time + TTL` and a `jti` (the fresh UUID supplied by the
caller for refresh tokens, drawn internally for client tokens); user
access tokens carry `sub`, `type = "user"` and `exp = issue time + TTL`
only, with no `jti`.  Stated via decode of the freshly issued tokens. -/
theorem c3_amended_issued_token_claims (now ttl : Nat) (subject token_id : String) :
    jwt_decode now (Token.signed (UserAuthManager.create_access_token now ttl subject))
        = Except.ok { sub := some subject, exp := now + ttl, type := some "user", jti := none }
      ∧ jwt_decode now (Token.signed (UserAuthManager.create_refresh_token now ttl subject token_id))
        = Except.ok { sub := some subject, exp := now + ttl, type := some "refresh",
                      jti := some token_id }
      ∧ jwt_decode now (Token.signed (ClientAuthManager.create_client_token now ttl subject token_id))
        = Except.ok { sub := some subject, exp := now + ttl, type := some "client",
                      jti := some token_id } := by
  have hexp : ¬ (now + ttl < now) := by omega
  refine ⟨?_, ?_, ?_⟩ <;>
    simp [jwt_decode, UserAuthManager.create_access_token,
      UserAuthManager.create_refresh_token, ClientAuthManager.create_client_token, hexp]

/-- C4 counterexample: revocation is NOT idempotent.  Revoking `jti = "j1"`
on an empty blacklist succeeds; revoking the same `jti` again hits the
primary-key constraint of table `token_blacklist` and surfaces a
`DatabaseOperationException` to the caller instead of succeeding as a
no-op. -/
theorem c4_counterexample_second_revoke_surfaces_error :
    AsyncTokenRepository.add_to_blacklist [] "j1" 2000 1000
        = Except.ok [{ jti := "j1", expires_at := 2000, revoked_at := 1000 }]
      ∧ AsyncTokenRepository.add_to_blacklist
            [{ jti := "j1", expires_at := 2000, revoked_at := 1000 }] "j1" 2000 1500
        = Except.error (DomainError.databaseOperation "Error adding token to blacklist")
      ∧ AsyncTokenRepository.is_blacklisted
            [{ jti := "j1", expires_at := 2000, revoked_at := 1000 }] "j1" = true := by
  exact ⟨rfl, rfl, rfl⟩

/-- C4 amended: the first `add_to_blacklist` for a fresh `jti` inserts the
row and `is_blacklisted` is true afterwards; a second call with the same
`jti` violates the `token_blacklist` primary key and raises
`DatabaseOperationException` to the caller (it is not a silent no-op);
the `jti` remains blacklisted. -/
theorem c4_amended_revocation_not_idempotent (bl : List TokenBlacklist) (jti : String)
    (e1 r1 e2 r2 : Nat) (h : AsyncTokenRepository.is_blacklisted bl jti = false) :
    AsyncTokenRepository.add_to_blacklist bl jti e1 r1
        = Except.ok (bl ++ [{ jti := jti, expires_at := e1, revoked_at := r1 }])
      ∧ AsyncTokenRepository.is_blacklisted
            (bl ++ [{ jti := jti, expires_at := e1, revoked_at := r1 }]) jti = true
      ∧ AsyncTokenRepository.add_to_blacklist
            (bl ++ [{ jti := jti, expires_at := e1, revoked_at := r1 }]) jti e2 r2
        = Except.error (DomainError.databaseOperation "Error adding token to blacklist") := by
  have hmem : AsyncTokenRepository.is_blacklisted
      (bl ++ [{ jti := jti, expires_at := e1, revoked_at := r1 }]) jti = true := by
    simp [AsyncTokenRepository.is_blacklisted]
  refine ⟨?_, hmem, ?_⟩
  · simp [AsyncTokenRepository.add_to_blacklist, h]
  · simp [AsyncTokenRepository.add_to_blacklist, hmem]

/-- C4 witness: the amended statement instantiated on the empty blacklist
with `jti = "j1"`. -/
theorem c4_amended_witness :
    AsyncTokenRepository.is_blacklisted [] "j1" = false
      ∧ (AsyncTokenRepository.add_to_blacklist [] "j1" 2000 1000
          = Except.ok [{ jti := "j1", expires_at := 2000, revoked_at := 1000 }]
        ∧ AsyncTokenRepository.is_blacklisted
              [{ jti := "j1", expires_at := 2000, revoked_at := 1000 }] "j1" = true
        ∧ AsyncTokenRepository.add_to_blacklist
              [{ jti := "j1", expires_at := 2000, revoked_at := 1000 }] "j1" 3000 2500
          = Except.error (DomainError.databaseOperation "Error adding token to blacklist")) := by
  refine ⟨rfl, ?_⟩
  have h := c4_amended_revocation_not_idempotent [] "j1" 2000 1000 3000 2500 rfl
  simpa using h

/-- C5: the storage-boundary password guard never runs.  The intended body
of `PasswordProtectionMiddleware.before_insert_or_update` would re-hash the
non-bcrypt value "plaintext123", but the registered listener calls the
async function without awaiting it, so the value actually persisted is the
plaintext, unchanged - for any external hasher `hash`. -/
theorem c5_plaintext_password_persisted_unchanged (hash : String → String) :
    bcrypt_pattern_match "plaintext123" = false
      ∧ PasswordProtectionMiddleware.before_insert_or_update_body hash "plaintext123"
          = hash "plaintext123"
      ∧ protect_password_on_insert "plaintext123" = "plaintext123" := by
  refine ⟨rfl, ?_, rfl⟩
  simp [PasswordProtectionMiddleware.before_insert_or_update_body, bcrypt_pattern_match]

/-- C2: the end-to-end revocation scenario fails on the code.  Login for
`alice` (correct credentials, time 1000, access TTL 900, refresh TTL
86400) returns an access token WITHOUT a `jti`; presenting that access
token to the logout endpoint yields HTTP 400 "Token does not support
revocation." (the blacklist is never written), and the very same access
token still authenticates afterwards. -/
theorem c2_logout_cannot_revoke_login_access_token :
    AsyncAuthService.login_user verifyEq [alice] 1000 900 86400 "rjti-1"
        "alice@example.com" "hashA"
      = Except.ok
          { access_token :=
              Token.signed { sub := some uuidA, exp := 1900, type := some "user", jti := none }
            refresh_token :=
              Token.signed { sub := some uuidA, exp := 87400, type := some "refresh",
                             jti := some "rjti-1" }
            expires_at := 1900 }
      ∧ auth_endpoint.logout_user 1000 []
            (Token.signed { sub := some uuidA, exp := 1900, type := some "user", jti := none })
        = Except.error ⟨400, "Token does not support revocation."⟩
      ∧ deps.get_permissions_current_user 1000 [] [alice]
            (Token.signed { sub := some uuidA, exp := 1900, type := some "user", jti := none })
        = Except.ok alice := by
  refine ⟨rfl, rfl, ?_⟩
  simp [deps.get_permissions_current_user, jwt_decode, deps.validate_uuid, uuidA,
    deps.jti_truthy_and_blacklisted, AsyncUserCRUD.get, alice]

/-- C1 counterexample: a `type = "refresh"` token is ACCEPTED by the bearer
user-authentication guard.  The refresh token issued for `alice` at time
1000 (TTL 86400) is signed, unexpired, of type "refresh", yet
`get_permissions_current_user` authenticates it as `alice`, because that
guard never inspects the `type` claim. -/
theorem c1_counterexample_refresh_token_accepted_as_user :
    (UserAuthManager.create_refresh_token 1000 86400 uuidA "rjti-1").type = some "refresh"
      ∧ deps.get_permissions_current_user 1000 [] [alice]
            (Token.signed (UserAuthManager.create_refresh_token 1000 86400 uuidA "rjti-1"))
        = Except.ok alice := by
  refine ⟨rfl, ?_⟩
  simp [deps.get_permissions_current_user, jwt_decode, deps.validate_uuid, uuidA,
    deps.jti_truthy_and_blacklisted, AsyncUserCRUD.get, alice,
    UserAuthManager.create_refresh_token, AsyncTokenRepository.is_blacklisted]

/-- C1 amended: every validation path that inspects the `type` claim
rejects every signed, unexpired token whose `type` differs from the one
it expects: `verify_access_token` (expects "user"),
`verify_refresh_token` (expects "refresh"),
`ClientAuthManager.verify_client_token` (expects "client"), and the inner
cookie checks (expect "access"; their 401 rejection is rewrapped by the
catch-all of `deps_cookies.py` so the observable response there is HTTP
500 "Internal server error").  A client token never authenticates as a
user through the bearer user guard because its integer `sub` fails the
UUID check.  But the bearer user guard itself performs no `type` check
and accepts an unexpired refresh token whose `sub` is the UUID of an
existing active user and whose `jti` is not blacklisted. -/
theorem c1_amended_type_checks_except_bearer_user_guard
    (now ttl : Nat) (subject token_id : String)
    (bl : List TokenBlacklist) (db : List User) (user : User)
    (hsub : deps.validate_uuid subject = true)
    (hne : subject ≠ "")
    (hjti : deps.jti_truthy_and_blacklisted bl (some token_id) = false)
    (hget : AsyncUserCRUD.get db subject = some user)
    (hact : user.is_active = true) :
    (∀ p : Payload, ¬ p.exp < now → p.type ≠ some "user" →
        UserAuthManager.verify_access_token now (Token.signed p)
          = Except.error ⟨401, "Token inválido: tipo incorreto."⟩)
    ∧ (∀ p : Payload, ¬ p.exp < now → p.type ≠ some "refresh" →
        UserAuthManager.verify_refresh_token now (Token.signed p)
          = Except.error ⟨401, "Token inválido: não é um refresh token."⟩)
    ∧ (∀ p : Payload, ¬ p.exp < now → p.type ≠ some "client" →
        ClientAuthManager.verify_client_token now (Token.signed p)
          = Except.error JWTErr.jwtError)
    ∧ (∀ p : Payload, ¬ p.exp < now → p.type ≠ some "access" →
        deps_cookies.cookie_token_checks bl db p
            = Except.error ⟨401, "Invalid token type"⟩
          ∧ deps_cookies.get_current_user_from_cookie now bl db "GET" true none none
              (some (Token.signed p))
            = Except.error ⟨500, "Internal server error"⟩)
    ∧ (∀ client_sub client_jti, deps.validate_uuid client_sub = false →
        deps.get_permissions_current_user now bl db
            (Token.signed (ClientAuthManager.create_client_token now ttl client_sub client_jti))
          = Except.error ⟨401, "Invalid authentication credentials."⟩)
    ∧ deps.get_permissions_current_user now bl db
        (Token.signed (UserAuthManager.create_refresh_token now ttl subject token_id))
      = Except.ok user := by
  have hexp : ¬ (now + ttl < now) := by omega
  refine ⟨?_, ?_, ?_, ?_, ?_, ?_⟩
  · intro p hpe hty
    simp [UserAuthManager.verify_access_token, jwt_decode, hpe, hty]
  · intro p hpe hty
    simp [UserAuthManager.verify_refresh_token, jwt_decode, hpe, hty]
  · intro p hpe hty
    simp [ClientAuthManager.verify_client_token, jwt_decode, hpe, hty]
  · intro p hpe hty
    have hchecks : deps_cookies.cookie_token_checks bl db p
        = Except.error ⟨401, "Invalid token type"⟩ := by
      simp [deps_cookies.cookie_token_checks, hty]
    refine ⟨hchecks, ?_⟩
    simp [deps_cookies.get_current_user_from_cookie, jwt_decode, hpe, hchecks]
  · intro client_sub client_jti hcs
    simp [deps.get_permissions_current_user, jwt_decode,
      ClientAuthManager.create_client_token, hexp, hcs]
  · simp [deps.get_permissions_current_user, jwt_decode,
      UserAuthManager.create_refresh_token, hexp, hsub, hne, hjti, hget, hact]

/-- C1 witness: the amended theorem applied to `alice` with the refresh
token `jti = "rjti-1"`, empty blacklist, time 1000, TTL 86400; the
type-check conjuncts are instantiated at the refresh token itself (for
the access/client/cookie paths) and at an access token presented to the
refresh path. -/
theorem c1_amended_witness :
    UserAuthManager.verify_access_token 1000
        (Token.signed (UserAuthManager.create_refresh_token 1000 86400 uuidA "rjti-1"))
      = Except.error ⟨401, "Token inválido: tipo incorreto."⟩
    ∧ UserAuthManager.verify_refresh_token 1000
        (Token.signed (Payload.mk (some uuidA) 1900 (some "user") none))
      = Except.error ⟨401, "Token inválido: não é um refresh token."⟩
    ∧ ClientAuthManager.verify_client_token 1000
        (Token.signed (UserAuthManager.create_refresh_token 1000 86400 uuidA "rjti-1"))
      = Except.error JWTErr.jwtError
    ∧ deps_cookies.get_current_user_from_cookie 1000 [] [alice] "GET" true none none
        (some (Token.signed (UserAuthManager.create_refresh_token 1000 86400 uuidA "rjti-1")))
      = Except.error ⟨500, "Internal server error"⟩
    ∧ deps.get_permissions_current_user 1000 [] [alice]
        (Token.signed (ClientAuthManager.create_client_token 1000 86400 "42" "cjti-1"))
      = Except.error ⟨401, "Invalid authentication credentials."⟩
    ∧ deps.get_permissions_current_user 1000 [] [alice]
        (Token.signed (UserAuthManager.create_refresh_token 1000 86400 uuidA "rjti-1"))
      = Except.ok alice := by
  have h := c1_amended_type_checks_except_bearer_user_guard 1000 86400 uuidA "rjti-1"
    [] [alice] alice (by decide) (by decide) rfl rfl rfl
  refine ⟨?_, ?_, ?_, ?_, ?_, h.2.2.2.2.2⟩
  · exact h.1 _ (by decide) (by decide)
  · exact h.2.1 (Payload.mk (some uuidA) 1900 (some "user") none) (by decide) (by decide)
  · exact h.2.2.1 _ (by decide) (by decide)
  · exact (h.2.2.2.1 _ (by decide) (by decide)).2
  · exact h.2.2.2.2.1 "42" "cjti-1" (by decide)

/-- Membership in the fold that `collect_user_permissions` performs over
the group list: a codename is collected iff it is in the initial set or in
the permissions of some group. -/
theorem mem_groups_foldl_union (groups : List AuthGroup) (init : Finset String) (c : String) :
    c ∈ groups.foldl
        (fun acc group => acc ∪ (group.permissions.map (fun perm => perm.codename)).toFinset)
        init
      ↔ c ∈ init ∨ ∃ g ∈ groups, ∃ p ∈ g.permissions, p.codename = c := by
  induction groups generalizing init with
  | nil => simp
  | cons g gs ih =>
    simp only [List.foldl_cons, ih, Finset.mem_union, List.mem_toFinset, List.mem_map,
      List.mem_cons]
    constructor
    · rintro (⟨h | ⟨p, hp, hpc⟩⟩ | ⟨g2, hg2, p, hp, hpc⟩)
      · exact Or.inl h
      · exact Or.inr ⟨g, Or.inl rfl, p, hp, hpc⟩
      · exact Or.inr ⟨g2, Or.inr hg2, p, hp, hpc⟩
    · rintro (h | ⟨g2, (rfl | hg2), p, hp, hpc⟩)
      · exact Or.inl (Or.inl h)
      · exact Or.inl (Or.inr ⟨p, hp, hpc⟩)
      · exact Or.inr ⟨g2, hg2, p, hp, hpc⟩

/-- C6: `User.has_permission` agrees with the permission-resolution spec:
it is true iff the user is a superuser or the codename lies in
`collect_user_permissions` (the set union of the direct permission
codenames and the codenames of every group permission; set semantics
deduplicate a codename present both directly and via a group).  With
`u.is_superuser = true` the left side is true for every codename even when
both permission lists are empty. -/
theorem c6_has_permission_iff_superuser_or_union (u : User) (c : String) :
    User.has_permission u c = true
      ↔ (u.is_superuser = true ∨ c ∈ collect_user_permissions u) := by
  unfold User.has_permission collect_user_permissions
  rcases hs : u.is_superuser with _ | _
  · simp only [hs, Bool.false_eq_true, if_false, false_or]
    rw [mem_groups_foldl_union]
    simp [List.any_eq_true, List.mem_toFinset, List.mem_map]
  · simp [hs]

/-- C7: login with a nonexistent email and login with an existing active
email but mismatching password produce the SAME error value - the same
exception class (`InvalidCredentialsException`) with the same message
"Incorrect email or password" - so the caller cannot tell which check
failed. -/
theorem c7_login_errors_indistinguishable (verify_password : String → String → Bool)
    (db : List User) (email1 pw1 email2 pw2 : String) (u : User)
    (h1 : AsyncUserCRUD.get_by_email db email1 = none)
    (h2 : AsyncUserCRUD.get_by_email db email2 = some u)
    (hact : u.is_active = true)
    (hpw : verify_password pw2 u.password = false) :
    AsyncUserCRUD.authenticate verify_password db email1 pw1
        = Except.error (DomainError.invalidCredentials "Incorrect email or password")
      ∧ AsyncUserCRUD.authenticate verify_password db email2 pw2
        = Except.error (DomainError.invalidCredentials "Incorrect email or password")
      ∧ AsyncUserCRUD.authenticate verify_password db email1 pw1
        = AsyncUserCRUD.authenticate verify_password db email2 pw2 := by
  have ha : AsyncUserCRUD.authenticate verify_password db email1 pw1
      = Except.error (DomainError.invalidCredentials "Incorrect email or password") := by
    simp [AsyncUserCRUD.authenticate, h1]
  have hb : AsyncUserCRUD.authenticate verify_password db email2 pw2
      = Except.error (DomainError.invalidCredentials "Incorrect email or password") := by
    simp [AsyncUserCRUD.authenticate, h2, hact, hpw]
  exact ⟨ha, hb, ha.trans hb.symm⟩

/-- C7 witness: unknown email `nobody@example.com` versus `alice` with the
wrong password, over the store `[alice]`. -/
theorem c7_witness :
    AsyncUserCRUD.get_by_email [alice] "nobody@example.com" = none
      ∧ AsyncUserCRUD.get_by_email [alice] "alice@example.com" = some alice
      ∧ alice.is_active = true
      ∧ verifyEq "wrongpw" alice.password = false
      ∧ AsyncUserCRUD.authenticate verifyEq [alice] "nobody@example.com" "whatever"
        = AsyncUserCRUD.authenticate verifyEq [alice] "alice@example.com" "wrongpw" := by
  have h := c7_login_errors_indistinguishable verifyEq [alice]
    "nobody@example.com" "whatever" "alice@example.com" "wrongpw" alice
    (by decide) (by decide) rfl (by decide)
  exact ⟨by decide, by decide, rfl, by decide, h.2.2⟩

/-- C8 counterexample: login for the inactive `bruno` with the correct
password yields `InvalidCredentialsException` with message
"Inactive user" - the SAME exception class as the invalid-credentials
error, not a distinct `Inactive` (`ResourceInactiveException`) error kind
(the constructors differ for every message). -/
theorem c8_counterexample_inactive_error_class :
    AsyncAuthService.login_user verifyEq [bruno] 1000 900 86400 "rjti-2"
        "bruno@example.com" "hashB"
      = Except.error (DomainError.invalidCredentials "Inactive user")
      ∧ (∀ m, DomainError.invalidCredentials "Inactive user" ≠ DomainError.resourceInactive m) := by
  constructor
  · rfl
  · intro m h
    exact DomainError.noConfusion h

/-- C8 amended: login with correct credentials for an inactive principal
fails, before the password is even verified, with
`InvalidCredentialsException` carrying the message "Inactive user" - the
same exception class as `InvalidCredentials`, distinct only in its
message - and never returns a token bundle; the HTTP endpoint maps it via
the `InvalidCredentialsException` branch to 401 with detail
"Inactive user" (the `ResourceInactiveException` branch is unreachable
from this path). -/
theorem c8_amended_inactive_login (verify_password : String → String → Bool)
    (db : List User) (email password : String) (u : User)
    (now access_ttl refresh_ttl : Nat) (token_id : String)
    (hu : AsyncUserCRUD.get_by_email db email = some u)
    (hinact : u.is_active = false) :
    AsyncUserCRUD.authenticate verify_password db email password
        = Except.error (DomainError.invalidCredentials "Inactive user")
      ∧ AsyncAuthService.login_user verify_password db now access_ttl refresh_ttl token_id
            email password
        = Except.error (DomainError.invalidCredentials "Inactive user")
      ∧ auth_endpoint.login_user verify_password db now access_ttl refresh_ttl token_id
            email password
        = Except.error ⟨401, "Inactive user"⟩ := by
  have ha : AsyncUserCRUD.authenticate verify_password db email password
      = Except.error (DomainError.invalidCredentials "Inactive user") := by
    simp [AsyncUserCRUD.authenticate, hu, hinact]
  have hb : AsyncAuthService.login_user verify_password db now access_ttl refresh_ttl token_id
      email password = Except.error (DomainError.invalidCredentials "Inactive user") := by
    simp [AsyncAuthService.login_user, ha]
  refine ⟨ha, hb, ?_⟩
  simp [auth_endpoint.login_user, hb]

/-- C8 witness: the amended statement instantiated on the store `[bruno]`
with correct password "hashB". -/
theorem c8_amended_witness :
    AsyncUserCRUD.get_by_email [bruno] "bruno@example.com" = some bruno
      ∧ bruno.is_active = false
      ∧ auth_endpoint.login_user verifyEq [bruno] 1000 900 86400 "rjti-2"
            "bruno@example.com" "hashB"
        = Except.error ⟨401, "Inactive user"⟩ := by
  have h := c8_amended_inactive_login verifyEq [bruno] "bruno@example.com" "hashB" bruno
    1000 900 86400 "rjti-2" (by decide) rfl
  exact ⟨by decide, rfl, h.2.2⟩

/-- C10: the login error detail distinguishes an inactive account from a
nonexistent one: both raise `InvalidCredentialsException`, but with message
"Inactive user" for an existing inactive account versus "Incorrect email
or password" for an unknown email or a wrong password, and the endpoint
forwards those two distinct strings as the 401 detail. -/
theorem c10_login_detail_distinguishes_inactive (verify_password : String → String → Bool)
    (db : List User) (e1 p1 e2 p2 e3 p3 : String) (u1 u3 : User)
    (now access_ttl refresh_ttl : Nat) (token_id : String)
    (h1 : AsyncUserCRUD.get_by_email db e1 = some u1)
    (h1i : u1.is_active = false)
    (h2 : AsyncUserCRUD.get_by_email db e2 = none)
    (h3 : AsyncUserCRUD.get_by_email db e3 = some u3)
    (h3a : u3.is_active = true)
    (h3p : verify_password p3 u3.password = false) :
    AsyncUserCRUD.authenticate verify_password db e1 p1
        = Except.error (DomainError.invalidCredentials "Inactive user")
      ∧ AsyncUserCRUD.authenticate verify_password db e2 p2
        = Except.error (DomainError.invalidCredentials "Incorrect email or password")
      ∧ AsyncUserCRUD.authenticate verify_password db e3 p3
        = Except.error (DomainError.invalidCredentials "Incorrect email or password")
      ∧ auth_endpoint.login_user verify_password db now access_ttl refresh_ttl token_id e1 p1
        = Except.error ⟨401, "Inactive user"⟩
      ∧ auth_endpoint.login_user verify_password db now access_ttl refresh_ttl token_id e2 p2
        = Except.error ⟨401, "Incorrect email or password"⟩
      ∧ ("Inactive user" : String) ≠ "Incorrect email or password" := by
  have ha : AsyncUserCRUD.authenticate verify_password db e1 p1
      = Except.error (DomainError.invalidCredentials "Inactive user") := by
    simp [AsyncUserCRUD.authenticate, h1, h1i]
  have hb : AsyncUserCRUD.authenticate verify_password db e2 p2
      = Except.error (DomainError.invalidCredentials "Incorrect email or password") := by
    simp [AsyncUserCRUD.authenticate, h2]
  have hc : AsyncUserCRUD.authenticate verify_password db e3 p3
      = Except.error (DomainError.invalidCredentials "Incorrect email or password") := by
    simp [AsyncUserCRUD.authenticate, h3, h3a, h3p]
  refine ⟨ha, hb, hc, ?_, ?_, by decide⟩
  · simp [auth_endpoint.login_user, AsyncAuthService.login_user, ha]
  · simp [auth_endpoint.login_user, AsyncAuthService.login_user, hb]

/-- C10 witness: store `[alice, bruno]`; inactive `bruno` with correct
password versus unknown email versus `alice` with a wrong password. -/
theorem c10_witness :
    AsyncUserCRUD.authenticate verifyEq [alice, bruno] "bruno@example.com" "hashB"
        = Except.error (DomainError.invalidCredentials "Inactive user")
      ∧ AsyncUserCRUD.authenticate verifyEq [alice, bruno] "nobody@example.com" "x"
        = Except.error (DomainError.invalidCredentials "Incorrect email or password")
      ∧ AsyncUserCRUD.authenticate verifyEq [alice, bruno] "alice@example.com" "wrongpw"
        = Except.error (DomainError.invalidCredentials "Incorrect email or password") := by
  have h := c10_login_detail_distinguishes_inactive verifyEq [alice, bruno]
    "bruno@example.com" "hashB" "nobody@example.com" "x" "alice@example.com" "wrongpw"
    bruno alice 1000 900 86400 "rjti-3"
    (by decide) rfl (by decide) (by decide) rfl (by decide)
  exact ⟨h.1, h.2.1, h.2.2.1⟩

/-- Without a `jti` claim the bearer user guard reads the same for every
blacklist: the lookup is short-circuited by `if jti and ...`. -/
theorem user_guard_blacklist_irrelevant_without_jti (now : Nat) (bl : List TokenBlacklist)
    (db : List User) (p : Payload) (hjti : p.jti = none) :
    deps.get_permissions_current_user now bl db (Token.signed p)
      = deps.get_permissions_current_user now [] db (Token.signed p) := by
  obtain ⟨psub, pexp, ptype, pjti⟩ := p
  simp only at hjti
  subst hjti
  unfold deps.get_permissions_current_user
  by_cases hexp : pexp < now
  · simp [jwt_decode, hexp]
  · simp [jwt_decode, hexp, deps.jti_truthy_and_blacklisted]

/-- Without a `jti` claim the bearer user guard can never answer with the
revocation rejection. -/
theorem user_guard_never_revoked_without_jti (now : Nat) (bl : List TokenBlacklist)
    (db : List User) (p : Payload) (hjti : p.jti = none) :
    deps.get_permissions_current_user now bl db (Token.signed p)
      ≠ Except.error ⟨401, "Token has been revoked."⟩ := by
  obtain ⟨psub, pexp, ptype, pjti⟩ := p
  simp only at hjti
  subst hjti
  unfold deps.get_permissions_current_user
  by_cases hexp : pexp < now
  · simp [jwt_decode, hexp]
  · simp only [jwt_decode, if_neg hexp]
    cases psub with
    | none => simp
    | some uid =>
      simp only [deps.jti_truthy_and_blacklisted, Bool.false_eq_true, if_false]
      split
      · simp
      · split
        · simp
        · split <;> simp

/-- Without a `jti` claim the client guard reads the same for every
blacklist. -/
theorem client_guard_blacklist_irrelevant_without_jti (now : Nat) (bl : List TokenBlacklist)
    (p : Payload) (hjti : p.jti = none) :
    deps.verify_client_token now bl (Token.signed p)
      = deps.verify_client_token now [] (Token.signed p) := by
  obtain ⟨psub, pexp, ptype, pjti⟩ := p
  simp only at hjti
  subst hjti
  unfold deps.verify_client_token ClientAuthManager.verify_client_token
  by_cases hexp : pexp < now
  · simp [jwt_decode, hexp]
  · by_cases hty : ptype = some "client" <;>
      simp [jwt_decode, hexp, hty, deps.jti_truthy_and_blacklisted]

/-- Without a `jti` claim the client guard can never answer with the
revocation rejection. -/
theorem client_guard_never_revoked_without_jti (now : Nat) (bl : List TokenBlacklist)
    (p : Payload) (hjti : p.jti = none) :
    deps.verify_client_token now bl (Token.signed p)
      ≠ Except.error ⟨401, "Client token has been revoked."⟩ := by
  obtain ⟨psub, pexp, ptype, pjti⟩ := p
  simp only at hjti
  subst hjti
  unfold deps.verify_client_token ClientAuthManager.verify_client_token
  by_cases hexp : pexp < now
  · simp [jwt_decode, hexp]
  · by_cases hty : ptype = some "client"
    · cases psub with
      | none => simp [jwt_decode, hexp, hty, deps.jti_truthy_and_blacklisted]
      | some s =>
        by_cases hs : s = "" <;>
          simp [jwt_decode, hexp, hty, hs, deps.jti_truthy_and_blacklisted]
    · simp [jwt_decode, hexp, hty]

/-- Without a `jti` claim the inner cookie checks read the same for every
blacklist. -/
theorem cookie_checks_blacklist_irrelevant_without_jti (bl : List TokenBlacklist)
    (db : List User) (p : Payload) (hjti : p.jti = none) :
    deps_cookies.cookie_token_checks bl db p
      = deps_cookies.cookie_token_checks [] db p := by
  obtain ⟨psub, pexp, ptype, pjti⟩ := p
  simp only at hjti
  subst hjti
  rfl

/-- Without a `jti` claim the cookie guard reads the same for every
blacklist. -/
theorem cookie_guard_blacklist_irrelevant_without_jti (now : Nat) (bl : List TokenBlacklist)
    (db : List User) (method : String) (cp : Bool) (ch cc : Option String)
    (p : Payload) (hjti : p.jti = none) :
    deps_cookies.get_current_user_from_cookie now bl db method cp ch cc
        (some (Token.signed p))
      = deps_cookies.get_current_user_from_cookie now [] db method cp ch cc
        (some (Token.signed p)) := by
  obtain ⟨psub, pexp, ptype, pjti⟩ := p
  simp only at hjti
  subst hjti
  have hc := cookie_checks_blacklist_irrelevant_without_jti bl db
    ⟨psub, pexp, ptype, none⟩ rfl
  unfold deps_cookies.get_current_user_from_cookie
  by_cases hcsrf : (method = "POST" ∨ method = "PUT" ∨ method = "DELETE" ∨ method = "PATCH")
      ∧ cp = true
      ∧ (deps_cookies.falsy ch ∨ deps_cookies.falsy cc ∨ ch ≠ cc)
  · simp [hcsrf]
  · by_cases hexp : pexp < now
    · simp [hcsrf, jwt_decode, hexp]
    · simp [hcsrf, jwt_decode, hexp, hc]

/-- Without a `jti` claim the cookie guard can never answer with the
revocation rejection (with the catch-all of `deps_cookies.py` the inner
revocation 401 is in fact never observable at all; it surfaces as 500). -/
theorem cookie_guard_never_revoked_without_jti (now : Nat) (bl : List TokenBlacklist)
    (db : List User) (method : String) (cp : Bool) (ch cc : Option String)
    (p : Payload) (hjti : p.jti = none) :
    deps_cookies.get_current_user_from_cookie now bl db method cp ch cc
        (some (Token.signed p))
      ≠ Except.error ⟨401, "Token has been revoked"⟩ := by
  obtain ⟨psub, pexp, ptype, pjti⟩ := p
  simp only at hjti
  subst hjti
  unfold deps_cookies.get_current_user_from_cookie
  by_cases hcsrf : (method = "POST" ∨ method = "PUT" ∨ method = "DELETE" ∨ method = "PATCH")
      ∧ cp = true
      ∧ (deps_cookies.falsy ch ∨ deps_cookies.falsy cc ∨ ch ≠ cc)
  · simp [hcsrf]
  · by_cases hexp : pexp < now
    · simp [hcsrf, jwt_decode, hexp]
    · cases hc : deps_cookies.cookie_token_checks bl db ⟨psub, pexp, ptype, none⟩ with
      | ok u => simp [hcsrf, jwt_decode, hexp, hc]
      | error e => simp [hcsrf, jwt_decode, hexp, hc]

/-- Without a `jti` claim the bearer user guard accepts the token whenever
the signature, expiry, subject-UUID, principal-existence and active checks
pass. -/
theorem user_guard_accepts_without_jti (now : Nat) (bl : List TokenBlacklist)
    (db : List User) (p : Payload) (user : User) (uid : String)
    (hjti : p.jti = none) (hsub : p.sub = some uid) (hne : uid ≠ "")
    (hval : deps.validate_uuid uid = true) (hexp : ¬ p.exp < now)
    (hget : AsyncUserCRUD.get db uid = some user) (hact : user.is_active = true) :
    deps.get_permissions_current_user now bl db (Token.signed p) = Except.ok user := by
  obtain ⟨psub, pexp, ptype, pjti⟩ := p
  simp only at hjti hsub hexp
  subst hjti
  subst hsub
  unfold deps.get_permissions_current_user
  simp [jwt_decode, hexp, hne, hval, deps.jti_truthy_and_blacklisted, hget, hact]

/-- C9: for a token that decodes but carries no `jti` claim, all three
authentication guards (bearer user, client, cookie) skip the blacklist
lookup entirely - their result is independent of the blacklist contents
and is never the revoked rejection - and the bearer user guard accepts
such a token whenever the signature, expiry, subject-UUID, principal and
active checks pass. -/
theorem c9_no_jti_skips_blacklist (now : Nat) (bl : List TokenBlacklist)
    (db : List User) (method : String) (cp : Bool) (ch cc : Option String)
    (p : Payload) (user : User) (hjti : p.jti = none) :
    deps.get_permissions_current_user now bl db (Token.signed p)
        = deps.get_permissions_current_user now [] db (Token.signed p)
    ∧ deps.get_permissions_current_user now bl db (Token.signed p)
        ≠ Except.error ⟨401, "Token has been revoked."⟩
    ∧ deps.verify_client_token now bl (Token.signed p)
        = deps.verify_client_token now [] (Token.signed p)
    ∧ deps.verify_client_token now bl (Token.signed p)
        ≠ Except.error ⟨401, "Client token has been revoked."⟩
    ∧ deps_cookies.get_current_user_from_cookie now bl db method cp ch cc
          (some (Token.signed p))
        = deps_cookies.get_current_user_from_cookie now [] db method cp ch cc
          (some (Token.signed p))
    ∧ deps_cookies.get_current_user_from_cookie now bl db method cp ch cc
          (some (Token.signed p))
        ≠ Except.error ⟨401, "Token has been revoked"⟩
    ∧ (∀ uid, p.sub = some uid → uid ≠ "" → deps.validate_uuid uid = true →
        ¬ p.exp < now → AsyncUserCRUD.get db uid = some user → user.is_active = true →
        deps.get_permissions_current_user now bl db (Token.signed p) = Except.ok user) :=
  ⟨user_guard_blacklist_irrelevant_without_jti now bl db p hjti,
   user_guard_never_revoked_without_jti now bl db p hjti,
   client_guard_blacklist_irrelevant_without_jti now bl p hjti,
   client_guard_never_revoked_without_jti now bl p hjti,
   cookie_guard_blacklist_irrelevant_without_jti now bl db method cp ch cc p hjti,
   cookie_guard_never_revoked_without_jti now bl db method cp ch cc p hjti,
   fun uid hsub hne hval hexp hget hact =>
     user_guard_accepts_without_jti now bl db p user uid hjti hsub hne hval hexp hget hact⟩

/-- C9 witness: the user access token of `alice` (which has no `jti`),
against a non-empty blacklist that even contains an unrelated entry, is
accepted by the bearer user guard and its result matches the
empty-blacklist run. -/
theorem c9_witness :
    (Payload.mk (some uuidA) 1900 (some "user") none).jti = none
      ∧ deps.get_permissions_current_user 1000 [{ jti := "other", expires_at := 99, revoked_at := 9 }]
            [alice] (Token.signed (Payload.mk (some uuidA) 1900 (some "user") none))
        = deps.get_permissions_current_user 1000 [] [alice]
            (Token.signed (Payload.mk (some uuidA) 1900 (some "user") none))
      ∧ deps.get_permissions_current_user 1000 [{ jti := "other", expires_at := 99, revoked_at := 9 }]
            [alice] (Token.signed (Payload.mk (some uuidA) 1900 (some "user") none))
        = Except.ok alice := by
  have h := c9_no_jti_skips_blacklist 1000
    [{ jti := "other", expires_at := 99, revoked_at := 9 }] [alice] "GET" true none none
    (Payload.mk (some uuidA) 1900 (some "user") none) alice rfl
  refine ⟨rfl, h.1, ?_⟩
  exact h.2.2.2.2.2.2 uuidA rfl (by decide) (by decide) (by decide) rfl rfl

end AdizellAsync
